import Mathlib

/-!
Verification development for the remittance-statistics pipeline in
`sharepoint.py`: note normalization, filename classification, per-payer
aggregation (monthly and YTD), template provisioning, and formula-preserving
worksheet population.

Python string methods are embedded as structural-recursive functions on
`List Char` so every definition evaluates inside the kernel.
-/

namespace PS1C

/-- Embedding of Python `str.startswith`: is the first list a prefix of the second. -/
def isPrefixCs : List Char → List Char → Bool
  | [], _ => true
  | _ :: _, [] => false
  | p :: ps, c :: cs => p == c && isPrefixCs ps cs

/-- Embedding of Python `s.split(sep)` for non-empty `sep`, on char lists, with
fuel (the length of the list) to make the recursion structural.  Matches are
non-overlapping, scanned left to right. -/
def splitSegs (sep : List Char) : Nat → List Char → List (List Char)
  | _, [] => [[]]
  | 0, l => [l]
  | Nat.succ fuel, c :: cs =>
    if isPrefixCs sep (c :: cs) && !sep.isEmpty then
      [] :: splitSegs sep fuel (List.drop (sep.length - 1) cs)
    else
      match splitSegs sep fuel cs with
      | [] => [[c]]
      | seg :: rest => (c :: seg) :: rest

/-- Embedding of Python `s.replace(old, new)` for non-empty `old`, on char
lists, with fuel; replaces every non-overlapping occurrence left to right. -/
def replaceSegs (old new : List Char) : Nat → List Char → List Char
  | _, [] => []
  | 0, l => l
  | Nat.succ fuel, c :: cs =>
    if isPrefixCs old (c :: cs) && !old.isEmpty then
      new ++ replaceSegs old new fuel (List.drop (old.length - 1) cs)
    else
      c :: replaceSegs old new fuel cs

/-- Embedding of Python `str.strip`: drop whitespace from both ends. -/
def trimCs (l : List Char) : List Char :=
  ((l.dropWhile Char.isWhitespace).reverse.dropWhile Char.isWhitespace).reverse

/-- Python `s.split(sep)` lifted to `String`. -/
def pySplit (s sep : String) : List String :=
  (splitSegs sep.data s.data.length s.data).map (fun cs => String.mk cs)

/-- Python `s.replace(old, new)` lifted to `String`. -/
def pyReplace (s old new : String) : String :=
  String.mk (replaceSegs old.data new.data s.data.length s.data)

/-- Python `s.strip()` lifted to `String`. -/
def pyStrip (s : String) : String :=
  String.mk (trimCs s.data)

/-- Python `s.startswith(p)` lifted to `String`. -/
def pyStartsWith (s p : String) : Bool :=
  isPrefixCs p.data s.data

/-- Python `s[:n]` lifted to `String`. -/
def pyTake (s : String) (n : Nat) : String :=
  String.mk (s.data.take n)

/-- Lexicographic `≤` on strings by code points, Python's string ordering. -/
def charsLe : List Char → List Char → Bool
  | [], _ => true
  | _ :: _, [] => false
  | c :: cs, d :: ds => if c = d then charsLe cs ds else decide (c < d)

/-- Insert a string into a sorted list, keeping it sorted (used to model
Python `sorted`). -/
def insertStr (x : String) : List String → List String
  | [] => [x]
  | y :: ys => if charsLe x.data y.data then x :: y :: ys else y :: insertStr x ys

/-- Embedding of Python `sorted` on a list of strings. -/
def sortStrs (l : List String) : List String :=
  l.foldr insertStr []

/-- Embedding of `SharePoint._normalize_payment_note`.  A `none` argument
models a missing value (pandas `NaN`, caught by `pd.isna`); a present note is
stripped and matched against the exact-string taxonomy, with unmatched notes
passed through verbatim. -/
def normalize_payment_note (note : Option String) : Option String :=
  match note with
  | none => none
  | some raw =>
    let note := pyStrip raw
    if note = "Proliance Backup Timeout" ∨ note = "Batch Missing in NextGen" then
      none
    else if note = "Balanced-Batch Closed" ∨ note = "Balanced-Batch Not Closed" ∨
        note = "Balanced" then
      some "Balanced"
    else if note = "Not Balanced-PLAs" ∨ note = "Not Balanced-Remit Exceptions" ∨
        note = "Not Balanced-Expected" then
      some "Not Balanced-Expected"
    else if note = "Reconciled-Post Option Grayed Out" ∨ note = "Not Balanced-Review" ∨
        note = "Not Balanced-TA Review" then
      some "Not Balanced-Review"
    else if note = "Amkai" then
      some "Amkai"
    else
      some note

/-- Embedding of `SharePoint._extract_payer_name`: split on the delimiter
`"_PMT MASTER_"`; exactly two parts yield the second part with every
occurrence of `".xlsx"` replaced by the empty string, anything else yields
`None`. -/
def extract_payer_name (filename : String) : Option String :=
  match pySplit filename "_PMT MASTER_" with
  | [_, p] => some (pyReplace p ".xlsx" "")
  | _ => none

/-- Embedding of the filename classification in
`SharePoint.generate_monthly_stats`: a file whose name starts with one of the
supported year prefixes is classified to the first 7 characters of its name
(`YYYY-MM`); any other file is skipped. -/
def classify_filename (filename : String) : Option String :=
  if pyStartsWith filename "2024-" || pyStartsWith filename "2025-" ||
      pyStartsWith filename "2026-" then
    some (pyTake filename 7)
  else
    none

/-- Embedding of `SharePoint.payer_row_mapping`: the fixed payer-to-row
layout contract with the template. -/
def payer_row_mapping : List (String × Nat) :=
  [("Aetna", 5), ("Amerigroup", 6), ("Centene", 7), ("CHPWA", 8), ("Cigna", 9),
   ("DSHS", 10), ("HNB Echo", 11), ("Humana", 12), ("Kaiser", 13),
   ("Medicare", 14), ("Optum", 15), ("Premera", 16), ("Providence", 17),
   ("Regence", 18), ("Small Payers", 19), ("Tricare", 20), ("UHC", 21),
   ("WA ST L&I", 22), ("Zelis", 23)]

/-- Python `dict` lookup on an association list (insertion order, first match). -/
def lookupRow : List (String × Nat) → String → Option Nat
  | [], _ => none
  | (q, r) :: rest, p => if p = q then some r else lookupRow rest p

/-- One downloaded PMT MASTER file: its name and the values of its `NOTE`
column, one `Option String` per row (`none` models a pandas `NaN`).
`noteRows = none` models a file whose read raises (unreadable workbook or
missing `NOTE` column) and is therefore skipped; `noteRows = some []` models
an empty dataframe, also skipped. -/
structure SourceFile where
  name : String
  noteRows : Option (List (Option String))
deriving DecidableEq

/-- The pair of accumulators built per aggregation pass:
`month_payer_stats` (a `defaultdict` of `defaultdict(int)`, modelled by its
key list plus a total count function defaulting to 0) and
`month_amkai_counts` (a `defaultdict(int)`, likewise). -/
structure Agg where
  statKeys : List String
  stats : String → String → Nat
  amkaiKeys : List String
  amkai : String → Nat

/-- Fresh accumulators at the start of an aggregation pass. -/
def emptyAgg : Agg :=
  { statKeys := [], stats := fun _ _ => 0, amkaiKeys := [], amkai := fun _ => 0 }

/-- One `month_payer_stats[payer][cat] += 1` step: the `defaultdict` adds the
payer key on first access and increments the count. -/
def bumpStat (a : Agg) (p c : String) : Agg :=
  { a with
    statKeys := if p ∈ a.statKeys then a.statKeys else a.statKeys ++ [p]
    stats := fun q d => if q = p ∧ d = c then a.stats q d + 1 else a.stats q d }

/-- One `month_amkai_counts[payer] += n` step: the `defaultdict` adds the
payer key (even when `n = 0`) and adds `n` to its counter. -/
def bumpAmkai (a : Agg) (p : String) (n : Nat) : Agg :=
  { a with
    amkaiKeys := if p ∈ a.amkaiKeys then a.amkaiKeys else a.amkaiKeys ++ [p]
    amkai := fun q => if q = p then a.amkai q + n else a.amkai q }

/-- The `NOTE` column after `apply(_normalize_payment_note)` and the
`notna()` filter: normalized values with the `None` rows dropped. -/
def normalizedNotes (notes : List (Option String)) : List String :=
  (notes.map normalize_payment_note).filterMap id

/-- Embedding of the per-file body of the aggregation loops in
`SharePoint._generate_reports_from_template` (identical in the monthly and
the YTD pass): derive the payer from the filename, skip files with no payer,
unreadable files and empty dataframes, then count each surviving normalized
row, the `Amkai` rows into the separate per-payer counter. -/
def processFile (a : Agg) (f : SourceFile) : Agg :=
  match extract_payer_name f.name with
  | none => a
  | some payer =>
    match f.noteRows with
    | none => a
    | some notes =>
      if notes.isEmpty then a
      else
        let filtered := normalizedNotes notes
        let nonAmkai := filtered.filter (fun c => c ≠ "Amkai")
        let a1 := nonAmkai.foldl (fun acc c => bumpStat acc payer c) a
        bumpAmkai a1 payer (filtered.countP (fun c => c = "Amkai"))

/-- Monthly aggregation: fold the per-file body over the files of one
period, starting from fresh accumulators. -/
def aggregateFiles (files : List SourceFile) : Agg :=
  files.foldl processFile emptyAgg

/-- YTD aggregation: the same per-file body folded over every period's files
of the year, in period order, starting from fresh accumulators. -/
def ytdAggregate (groups : List (String × List SourceFile)) : Agg :=
  groups.foldl (fun a g => g.snd.foldl processFile a) emptyAgg

/-- A worksheet cell as openpyxl exposes it: `data_type = 'f'` exactly on the
`formula` variant. -/
inductive Cell where
  | formula (src : String)
  | num (n : Nat)
  | str (s : String)
  | blank
deriving DecidableEq

/-- Whether openpyxl reports `data_type = 'f'` for the cell. -/
def Cell.isFormula : Cell → Bool
  | Cell.formula _ => true
  | _ => false

/-- A worksheet: contents indexed by column letter and row number. -/
structure Worksheet where
  cells : String → Nat → Cell

/-- A workbook: its sheets in tab order, keyed by sheet name. -/
structure Workbook where
  sheets : List (String × Worksheet)

/-- The sheet names of a workbook, as `wb.sheetnames`. -/
def Workbook.sheetNames (wb : Workbook) : List String :=
  wb.sheets.map Prod.fst

/-- Embedding of one guarded write `if ws[addr].data_type != 'f':
ws[addr].value = v`: a cell currently holding a formula is left untouched,
any other cell receives the literal count. -/
def writeCell (ws : Worksheet) (col : String) (row : Nat) (v : Nat) : Worksheet :=
  if (ws.cells col row).isFormula then ws
  else { cells := fun c r => if c = col ∧ r = row then Cell.num v else ws.cells c r }

/-- The four guarded writes of one payer row: columns D, F, H, K in source
order. -/
def writePayerRow (ws : Worksheet) (row dv fv hv kv : Nat) : Worksheet :=
  writeCell (writeCell (writeCell (writeCell ws "D" row dv) "F" row fv) "H" row hv) "K" row kv

/-- Body of the first population loop (`for payer_name, stats in
payer_stats.items()`): payers with data whose name is in the row mapping get
their counts written; unknown payers are ignored. -/
def popKnownStep (agg : Agg) (w : Worksheet) (p : String) : Worksheet :=
  match lookupRow payer_row_mapping p with
  | some row =>
    writePayerRow w row (agg.stats p "Balanced") (agg.stats p "Not Balanced-Expected")
      (agg.stats p "Not Balanced-Review") (agg.amkai p)
  | none => w

/-- Body of the second population loop (`for payer_name, row in
self.payer_row_mapping.items()`): payers of the mapping absent from the data
are zero-filled, with column K taken from the Amkai counter. -/
def popZeroStep (agg : Agg) (w : Worksheet) (pr : String × Nat) : Worksheet :=
  if pr.fst ∈ agg.statKeys then w
  else writePayerRow w pr.snd 0 0 0 (agg.amkai pr.fst)

/-- Embedding of the cell writes of `SharePoint._populate_monthly_worksheet`
on the resolved sheet: the loop over the payers with data, then the loop over
the row mapping zero-filling payers without data.  The cursor reset touches
only view state, never cells, and is not modelled. -/
def populateSheet (ws : Worksheet) (agg : Agg) : Worksheet :=
  payer_row_mapping.foldl (popZeroStep agg) (agg.statKeys.foldl (popKnownStep agg) ws)

/-- Embedding of `SharePoint._populate_monthly_worksheet` at workbook level:
resolve the sheet by name; when absent, return the workbook unchanged and
unsaved (the Boolean records whether `wb.save` ran); otherwise rewrite that
sheet and save. -/
def populate_monthly_worksheet (wb : Workbook) (sheetName : String) (agg : Agg) :
    Workbook × Bool :=
  if sheetName ∈ wb.sheetNames then
    ({ sheets := wb.sheets.map
        (fun p => if p.fst = sheetName then (p.fst, populateSheet p.snd agg) else p) },
     true)
  else
    (wb, false)

/-- Embedding of the `C3` header-cell substitution on template creation:
`if ws['C3'].value and 'YYYY' in str(ws['C3'].value)` then replace the token.
A blank cell and a zero are falsy; a formula cell's `value` is its source
text, and the replaced text is still a formula. -/
def substC3Value (c : Cell) (year : String) : Cell :=
  match c with
  | Cell.str s =>
    if s ≠ "" ∧ (pySplit s "YYYY").length ≠ 1 then Cell.str (pyReplace s "YYYY" year)
    else Cell.str s
  | Cell.formula src =>
    if (pySplit src "YYYY").length ≠ 1 then Cell.formula (pyReplace src "YYYY" year)
    else Cell.formula src
  | c => c

/-- Embedding of the clone-time substitution pass over every worksheet of
the copied template: rename each tab by replacing the `YYYY` token with the
year and substitute the token in the `C3` header cell; every other cell is
left untouched. -/
def substituteYear (wb : Workbook) (year : String) : Workbook :=
  { sheets := wb.sheets.map (fun p =>
      (pyReplace p.fst "YYYY" year,
       { cells := fun c r =>
           if c = "C" ∧ r = 3 then substC3Value (p.snd.cells "C" 3) year
           else p.snd.cells c r })) }

/-- The persistent files the pipeline touches: the per-year stats workbooks
(`<year>_Stats.xlsx` under the stats directory) and the static template
(`Stats_template.xlsx`), each present or absent. -/
structure FS where
  stats : String → Option Workbook
  template : Option Workbook

/-- Outcome of the provisioning step for one year, recording which branch of
`_generate_reports_from_template` ran: the year's file already existed and was
opened as is, the file was created by clone-and-substitute, or the template
was missing and the error branch ran. -/
inductive ProvisionResult where
  | existing (fs : FS) (wb : Workbook)
  | created (fs : FS) (wb : Workbook)
  | missingTemplate (fs : FS)

/-- Embedding of the provisioning block of
`SharePoint._generate_reports_from_template` (the `excel_file_path.exists()`
check): an existing stats file is used unmodified; otherwise the template is
cloned, the year substituted, and the result saved as the year's stats file;
a missing template is the reported error branch. -/
def ensure_workbook (fs : FS) (year : String) : ProvisionResult :=
  match fs.stats year with
  | some wb => ProvisionResult.existing fs wb
  | none =>
    match fs.template with
    | none => ProvisionResult.missingTemplate fs
    | some tmpl =>
      let wb := substituteYear tmpl year
      ProvisionResult.created
        { fs with stats := fun y => if y = year then some wb else fs.stats y } wb

/-- Embedding of `SharePoint.get_month_sheet_name`. -/
def get_month_sheet_name (year month : String) : String :=
  year ++ "-" ++ month

/-- Embedding of `SharePoint.get_ytd_sheet_name`. -/
def get_ytd_sheet_name (year : String) : String :=
  year ++ "-YTD"

/-- The first component of `year_month.split('-')`, as in
`year_month.split('-')[0]`. -/
def yearOfKey (ym : String) : String :=
  match pySplit ym "-" with
  | y :: _ => y
  | [] => ym

/-- Embedding of the `years = set(); years.add(year)` accumulation: the set
of distinct years occurring among the period keys. -/
def uniqueYears (keys : List String) : List String :=
  keys.foldl (fun l ym => if yearOfKey ym ∈ l then l else l ++ [yearOfKey ym]) []

/-- The `sorted(years)` iteration order of the per-year loop. -/
def yearsOf (monthlyData : List (String × List SourceFile)) : List String :=
  sortStrs (uniqueYears (monthlyData.map Prod.fst))

/-- Embedding of the per-year body after provisioning: populate one monthly
sheet per period key of the year, in order, then the YTD sheet from the fresh
YTD pass over all of the year's files. -/
def processYearData (wb : Workbook) (year : String)
    (yearMonths : List (String × List SourceFile)) : Workbook :=
  let wb1 := yearMonths.foldl (fun w ym =>
    match pySplit ym.fst "-" with
    | [y, m] => (populate_monthly_worksheet w (get_month_sheet_name y m)
        (aggregateFiles ym.snd)).fst
    | _ => w) wb
  (populate_monthly_worksheet wb1 (get_ytd_sheet_name year) (ytdAggregate yearMonths)).fst

/-- Embedding of the `for year in sorted(years)` loop of
`SharePoint._generate_reports_from_template`.  Returns the final file state
and the list of years whose reports were generated.  A year without period
keys is skipped (`continue`); a missing template with no existing stats file
executes `return`, which ends the whole loop, so no later year is
processed. -/
def reportsLoop (monthlyData : List (String × List SourceFile)) :
    FS → List String → FS × List String
  | fs, [] => (fs, [])
  | fs, year :: rest =>
    let yearMonths := monthlyData.filter (fun g => pyStartsWith g.fst year)
    if yearMonths.isEmpty then reportsLoop monthlyData fs rest
    else
      match ensure_workbook fs year with
      | ProvisionResult.missingTemplate fs1 => (fs1, [])
      | ProvisionResult.existing fs1 wb | ProvisionResult.created fs1 wb =>
        let wb2 := processYearData wb year yearMonths
        let fs2 : FS :=
          { fs1 with stats := fun y => if y = year then some wb2 else fs1.stats y }
        let res := reportsLoop monthlyData fs2 rest
        (res.fst, year :: res.snd)

/-- Embedding of `SharePoint._generate_reports_from_template`: derive the
sorted distinct years from the period keys and run the per-year loop. -/
def generate_reports_from_template (fs : FS)
    (monthlyData : List (String × List SourceFile)) : FS × List String :=
  reportsLoop monthlyData fs (yearsOf monthlyData)

example : pySplit "2025-08_PMT MASTER_Aetna.xlsx" "_PMT MASTER_" =
    ["2025-08", "Aetna.xlsx"] := by decide
example : pyReplace "Aetna.xlsx" ".xlsx" "" = "Aetna" := by decide
example : pyStartsWith "2025-08_PMT MASTER_Aetna.xlsx" "2025-" = true := by decide
example : pyTake "2025-08_PMT MASTER_Aetna.xlsx" 7 = "2025-08" := by decide
example : pyStrip "  x " = "x" := by decide
example : normalize_payment_note (some "Balanced-Batch Closed") = some "Balanced" := by decide
example : normalize_payment_note (some "") = some "" := by decide
example : extract_payer_name "2025-08_PMT MASTER_Aetna.xlsx" = some "Aetna" := by decide
example : classify_filename "readme.txt" = none := by decide
example : classify_filename "2025-08_PMT MASTER_Aetna.xlsx" = some "2025-08" := by decide
example : sortStrs ["2026", "2024", "2025"] = ["2024", "2025", "2026"] := by decide
example : extract_payer_name "readme.txt" = none := by decide
example : lookupRow payer_row_mapping "Aetna" = some 5 := by decide

/-- First monthly file of the YTD consistency scenario. -/
def aetnaJan : SourceFile :=
  { name := "2025-01_PMT MASTER_Aetna.xlsx",
    noteRows := some [some "Balanced", some "Not Balanced-Review"] }

/-- Second monthly file of the YTD consistency scenario. -/
def aetnaFeb : SourceFile :=
  { name := "2025-02_PMT MASTER_Aetna.xlsx",
    noteRows := some [some "Balanced", some "Amkai"] }

example : (aggregateFiles [aetnaJan]).stats "Aetna" "Balanced" = 1 := by decide
example : (aggregateFiles [aetnaJan]).stats "Aetna" "Not Balanced-Review" = 1 := by decide
example : (aggregateFiles [aetnaJan]).amkai "Aetna" = 0 := by decide
example : (aggregateFiles [aetnaFeb]).stats "Aetna" "Balanced" = 1 := by decide
example : (aggregateFiles [aetnaFeb]).amkai "Aetna" = 1 := by decide
example :
    (ytdAggregate [("2025-01", [aetnaJan]), ("2025-02", [aetnaFeb])]).stats "Aetna" "Balanced"
      = 2 := by decide
example :
    (ytdAggregate [("2025-01", [aetnaJan]), ("2025-02", [aetnaFeb])]).amkai "Aetna"
      = 1 := by decide
/-- A file whose embedded payer name is not in the row mapping. -/
def bogusFile : SourceFile :=
  { name := "2025-08_PMT MASTER_Bogus.xlsx", noteRows := some [some "Balanced"] }

example : (aggregateFiles [bogusFile]).statKeys = ["Bogus"] := by decide
example : yearsOf [("2025-01", []), ("2024-03", []), ("2025-02", [])] = ["2024", "2025"] := by
  decide

/-- The value the populator is specified to leave in the cell of payer `p`
and output column `col` when the cell is not a formula: the aggregated count
for payers with data, zero for absent payers, except that column K always
receives the separate Amkai counter. -/
def designatedValue (agg : Agg) (p col : String) : Nat :=
  if p ∈ agg.statKeys then
    if col = "D" then agg.stats p "Balanced"
    else if col = "F" then agg.stats p "Not Balanced-Expected"
    else if col = "H" then agg.stats p "Not Balanced-Review"
    else agg.amkai p
  else if col = "K" then agg.amkai p else 0

theorem writeCell_cells_ne {ws : Worksheet} {col : String} {row : Nat} {v : Nat}
    {c : String} {r : Nat} (hne : ¬(c = col ∧ r = row)) :
    (writeCell ws col row v).cells c r = ws.cells c r := by
  unfold writeCell
  split
  · rfl
  · simp [hne]

theorem writeCell_formula {ws : Worksheet} {col : String} {row : Nat} {v : Nat}
    {c : String} {r : Nat} {e : String} (hf : ws.cells c r = Cell.formula e) :
    (writeCell ws col row v).cells c r = Cell.formula e := by
  unfold writeCell
  split
  · exact hf
  · next hnf =>
      by_cases hcr : c = col ∧ r = row
      · rcases hcr with ⟨rfl, rfl⟩
        rw [hf] at hnf
        simp [Cell.isFormula] at hnf
      · simp [hcr, hf]

theorem writeCell_cells_self {ws : Worksheet} {col : String} {row : Nat} {v : Nat} :
    (writeCell ws col row v).cells col row =
      if (ws.cells col row).isFormula then ws.cells col row else Cell.num v := by
  unfold writeCell
  split
  · next h => simp [h]
  · next h => simp [h]

theorem writeCell_congr_row {a b : Worksheet} {col : String} {r : Nat} {v : Nat}
    (hagree : ∀ c0, a.cells c0 r = b.cells c0 r) (c0 : String) :
    (writeCell a col r v).cells c0 r = (writeCell b col r v).cells c0 r := by
  unfold writeCell
  rw [hagree col]
  split
  · exact hagree c0
  · by_cases hcr : c0 = col ∧ r = r
    · simp [hcr]
    · simp [hcr, hagree c0]

theorem writePayerRow_cells_ne_row {ws : Worksheet} {row dv fv hv kv : Nat}
    {c : String} {r : Nat} (hr : r ≠ row) :
    (writePayerRow ws row dv fv hv kv).cells c r = ws.cells c r := by
  unfold writePayerRow
  rw [writeCell_cells_ne (fun h => hr h.2), writeCell_cells_ne (fun h => hr h.2),
    writeCell_cells_ne (fun h => hr h.2), writeCell_cells_ne (fun h => hr h.2)]

theorem writePayerRow_formula {ws : Worksheet} {row dv fv hv kv : Nat}
    {c : String} {r : Nat} {e : String} (hf : ws.cells c r = Cell.formula e) :
    (writePayerRow ws row dv fv hv kv).cells c r = Cell.formula e :=
  writeCell_formula (writeCell_formula (writeCell_formula (writeCell_formula hf)))

theorem writePayerRow_congr_row {a b : Worksheet} {r dv fv hv kv : Nat}
    (hagree : ∀ c0, a.cells c0 r = b.cells c0 r) (c0 : String) :
    (writePayerRow a r dv fv hv kv).cells c0 r = (writePayerRow b r dv fv hv kv).cells c0 r := by
  unfold writePayerRow
  exact writeCell_congr_row
    (fun c1 => writeCell_congr_row
      (fun c2 => writeCell_congr_row
        (fun c3 => writeCell_congr_row hagree c3) c2) c1) c0

theorem writePayerRow_cells_D {ws : Worksheet} {row dv fv hv kv : Nat} :
    (writePayerRow ws row dv fv hv kv).cells "D" row =
      if (ws.cells "D" row).isFormula then ws.cells "D" row else Cell.num dv := by
  unfold writePayerRow
  rw [writeCell_cells_ne (fun h => absurd h.1 (by decide)),
    writeCell_cells_ne (fun h => absurd h.1 (by decide)),
    writeCell_cells_ne (fun h => absurd h.1 (by decide)), writeCell_cells_self]

theorem writePayerRow_cells_F {ws : Worksheet} {row dv fv hv kv : Nat} :
    (writePayerRow ws row dv fv hv kv).cells "F" row =
      if (ws.cells "F" row).isFormula then ws.cells "F" row else Cell.num fv := by
  unfold writePayerRow
  rw [writeCell_cells_ne (fun h => absurd h.1 (by decide)),
    writeCell_cells_ne (fun h => absurd h.1 (by decide)), writeCell_cells_self,
    writeCell_cells_ne (fun h => absurd h.1 (by decide))]

theorem writePayerRow_cells_H {ws : Worksheet} {row dv fv hv kv : Nat} :
    (writePayerRow ws row dv fv hv kv).cells "H" row =
      if (ws.cells "H" row).isFormula then ws.cells "H" row else Cell.num hv := by
  unfold writePayerRow
  rw [writeCell_cells_ne (fun h => absurd h.1 (by decide)), writeCell_cells_self,
    writeCell_cells_ne (fun h => absurd h.1 (by decide)),
    writeCell_cells_ne (fun h => absurd h.1 (by decide))]

theorem writePayerRow_cells_K {ws : Worksheet} {row dv fv hv kv : Nat} :
    (writePayerRow ws row dv fv hv kv).cells "K" row =
      if (ws.cells "K" row).isFormula then ws.cells "K" row else Cell.num kv := by
  unfold writePayerRow
  rw [writeCell_cells_self, writeCell_cells_ne (fun h => absurd h.1 (by decide)),
    writeCell_cells_ne (fun h => absurd h.1 (by decide)),
    writeCell_cells_ne (fun h => absurd h.1 (by decide))]

theorem lookupRow_mem : ∀ (l : List (String × Nat)) (p : String) (r : Nat),
    lookupRow l p = some r → (p, r) ∈ l := by
  intro l
  induction l with
  | nil => intro p r h; cases h
  | cons qr rest ih =>
    intro p r h
    obtain ⟨q, row⟩ := qr
    unfold lookupRow at h
    by_cases hpq : p = q
    · rw [if_pos hpq] at h
      cases h
      exact hpq ▸ List.mem_cons_self _ _
    · rw [if_neg hpq] at h
      exact List.mem_cons_of_mem _ (ih p r h)

theorem mem_lookupRow : ∀ (l : List (String × Nat)),
    (l.map Prod.fst).Nodup → ∀ (p : String) (r : Nat), (p, r) ∈ l →
    lookupRow l p = some r := by
  intro l
  induction l with
  | nil => intro _ p r h; cases h
  | cons qr rest ih =>
    intro hnd p r hmem
    obtain ⟨q, row⟩ := qr
    rw [List.map_cons, List.nodup_cons] at hnd
    unfold lookupRow
    rcases List.mem_cons.mp hmem with heq | hrest
    · cases heq
      rw [if_pos rfl]
    · have hpq : p ≠ q := by
        intro hpq
        have hpm : Prod.fst (p, r) ∈ rest.map Prod.fst :=
          List.mem_map_of_mem Prod.fst hrest
        rw [hpq] at hpm
        exact hnd.1 hpm
      rw [if_neg hpq]
      exact ih hnd.2 p r hrest

theorem rows_inj : ∀ (l : List (String × Nat)), (l.map Prod.snd).Nodup →
    ∀ (p q : String) (r : Nat), (p, r) ∈ l → (q, r) ∈ l → p = q := by
  intro l
  induction l with
  | nil => intro _ p q r h; cases h
  | cons pr rest ih =>
    intro hnd p q r hp hq
    obtain ⟨a, b⟩ := pr
    rw [List.map_cons, List.nodup_cons] at hnd
    rcases List.mem_cons.mp hp with hp1 | hp1 <;> rcases List.mem_cons.mp hq with hq1 | hq1
    · exact congrArg Prod.fst (hp1.trans hq1.symm)
    · injection hp1 with h1 h2
      subst h1
      subst h2
      exact absurd (List.mem_map_of_mem Prod.snd hq1) hnd.1
    · injection hq1 with h1 h2
      subst h1
      subst h2
      exact absurd (List.mem_map_of_mem Prod.snd hp1) hnd.1
    · exact ih hnd.2 p q r hp1 hq1

theorem popKnown_untouched (agg : Agg) (r : Nat) (c : String) :
    ∀ (keys : List String) (ws : Worksheet),
    (∀ q ∈ keys, lookupRow payer_row_mapping q ≠ some r) →
    (keys.foldl (popKnownStep agg) ws).cells c r = ws.cells c r := by
  intro keys
  induction keys with
  | nil => intro ws _; rfl
  | cons q rest ih =>
    intro ws hnone
    rw [List.foldl_cons,
      ih _ (fun q2 hq2 => hnone q2 (List.mem_cons_of_mem _ hq2))]
    have hq := hnone q (List.mem_cons_self _ _)
    unfold popKnownStep
    cases hlook : lookupRow payer_row_mapping q with
    | none => rfl
    | some row =>
      have hrow : r ≠ row := fun h => hq (h ▸ hlook)
      exact writePayerRow_cells_ne_row hrow

theorem popKnown_val (agg : Agg) (p : String) (r : Nat)
    (hrow : lookupRow payer_row_mapping p = some r)
    (hinj : ∀ q, lookupRow payer_row_mapping q = some r → q = p) :
    ∀ (keys : List String) (ws : Worksheet), keys.Nodup → p ∈ keys → ∀ c,
    (keys.foldl (popKnownStep agg) ws).cells c r =
      (writePayerRow ws r (agg.stats p "Balanced") (agg.stats p "Not Balanced-Expected")
        (agg.stats p "Not Balanced-Review") (agg.amkai p)).cells c r := by
  intro keys
  induction keys with
  | nil => intro ws _ hmem; cases hmem
  | cons q rest ih =>
    intro ws hnd hmem c
    rw [List.foldl_cons]
    rw [List.nodup_cons] at hnd
    by_cases hqp : q = p
    · subst hqp
      have hstep : popKnownStep agg ws q = writePayerRow ws r (agg.stats q "Balanced")
          (agg.stats q "Not Balanced-Expected") (agg.stats q "Not Balanced-Review")
          (agg.amkai q) := by
        unfold popKnownStep
        rw [hrow]
      rw [hstep]
      apply popKnown_untouched
      intro q2 hq2 heq
      exact hnd.1 (hinj q2 heq ▸ hq2)
    · have hmem2 : p ∈ rest := by
        rcases List.mem_cons.mp hmem with h | h
        · exact absurd h.symm hqp
        · exact h
      cases hlook : lookupRow payer_row_mapping q with
      | none =>
        have hstep : popKnownStep agg ws q = ws := by
          unfold popKnownStep
          rw [hlook]
        rw [hstep]
        exact ih ws hnd.2 hmem2 c
      | some row =>
        have hrne : r ≠ row := fun h => hqp (hinj q (h ▸ hlook))
        have hstep : popKnownStep agg ws q = writePayerRow ws row (agg.stats q "Balanced")
            (agg.stats q "Not Balanced-Expected") (agg.stats q "Not Balanced-Review")
            (agg.amkai q) := by
          unfold popKnownStep
          rw [hlook]
        rw [hstep, ih _ hnd.2 hmem2 c]
        exact writePayerRow_congr_row (fun c0 => writePayerRow_cells_ne_row hrne) c

theorem popZero_untouched (agg : Agg) (r : Nat) (c : String) :
    ∀ (l : List (String × Nat)) (ws : Worksheet),
    (∀ pr ∈ l, pr.fst ∉ agg.statKeys → pr.snd ≠ r) →
    (l.foldl (popZeroStep agg) ws).cells c r = ws.cells c r := by
  intro l
  induction l with
  | nil => intro ws _; rfl
  | cons pr rest ih =>
    intro ws hnone
    rw [List.foldl_cons,
      ih _ (fun pr2 hpr2 => hnone pr2 (List.mem_cons_of_mem _ hpr2))]
    unfold popZeroStep
    by_cases hmem : pr.fst ∈ agg.statKeys
    · rw [if_pos hmem]
    · rw [if_neg hmem]
      exact writePayerRow_cells_ne_row
        (fun h => hnone pr (List.mem_cons_self _ _) hmem h.symm)

theorem popZero_val (agg : Agg) (p : String) (r : Nat) (hp : p ∉ agg.statKeys) :
    ∀ (l : List (String × Nat)) (ws : Worksheet), (p, r) ∈ l → (l.map Prod.snd).Nodup →
    ∀ c, (l.foldl (popZeroStep agg) ws).cells c r =
      (writePayerRow ws r 0 0 0 (agg.amkai p)).cells c r := by
  intro l
  induction l with
  | nil => intro ws hmem; cases hmem
  | cons pr rest ih =>
    intro ws hmem hnd c
    obtain ⟨q, row⟩ := pr
    rw [List.foldl_cons]
    rw [List.map_cons, List.nodup_cons] at hnd
    rcases List.mem_cons.mp hmem with heq | hrest
    · injection heq with h1 h2
      subst h1
      subst h2
      have hstep : popZeroStep agg ws (p, r) = writePayerRow ws r 0 0 0 (agg.amkai p) := by
        unfold popZeroStep
        rw [if_neg hp]
      rw [hstep]
      apply popZero_untouched
      intro pr2 hpr2 _ heq2
      have hmm : Prod.snd pr2 ∈ rest.map Prod.snd := List.mem_map_of_mem Prod.snd hpr2
      rw [heq2] at hmm
      exact hnd.1 hmm
    · have hrmem : r ∈ rest.map Prod.snd := List.mem_map_of_mem Prod.snd hrest
      by_cases hq : q ∈ agg.statKeys
      · have hstep : popZeroStep agg ws (q, row) = ws := by
          unfold popZeroStep
          rw [if_pos hq]
        rw [hstep]
        exact ih ws hrest hnd.2 c
      · have hrowne : row ≠ r := fun h => hnd.1 (h.symm ▸ hrmem)
        have hstep : popZeroStep agg ws (q, row) =
            writePayerRow ws row 0 0 0 (agg.amkai q) := by
          unfold popZeroStep
          rw [if_neg hq]
        rw [hstep, ih _ hrest hnd.2 c]
        exact writePayerRow_congr_row
          (fun c0 => writePayerRow_cells_ne_row (Ne.symm hrowne)) c

theorem foldl_formula {α : Type} (c : String) (r : Nat) (step : Worksheet → α → Worksheet)
    (hstep : ∀ (w : Worksheet) (a : α) (e : String),
      w.cells c r = Cell.formula e → (step w a).cells c r = Cell.formula e) :
    ∀ (l : List α) (w : Worksheet) (e : String),
    w.cells c r = Cell.formula e → (l.foldl step w).cells c r = Cell.formula e := by
  intro l
  induction l with
  | nil => intro w e hf; exact hf
  | cons a t ih =>
    intro w e hf
    rw [List.foldl_cons]
    exact ih _ e (hstep w a e hf)

/-- Every cell holding a formula is left untouched by the whole population
pass: both loops guard each write with the per-cell `data_type != 'f'`
check. -/
theorem populateSheet_formula (ws : Worksheet) (agg : Agg) (c : String) (r : Nat)
    (e : String) (hf : ws.cells c r = Cell.formula e) :
    (populateSheet ws agg).cells c r = Cell.formula e := by
  unfold populateSheet
  apply foldl_formula c r _ ?hzero _ _ e
  · apply foldl_formula c r _ ?hknown _ _ e hf
    intro w p e2 hf2
    unfold popKnownStep
    cases lookupRow payer_row_mapping p with
    | none => exact hf2
    | some row => exact writePayerRow_formula hf2
  · intro w pr e2 hf2
    unfold popZeroStep
    by_cases hmem : pr.fst ∈ agg.statKeys
    · rw [if_pos hmem]
      exact hf2
    · rw [if_neg hmem]
      exact writePayerRow_formula hf2

/-- Full characterization of the cell at a mapped payer row and one of the
four output columns after population: a formula cell keeps its formula, any
other cell holds the designated count. -/
theorem populateSheet_payerCell (ws : Worksheet) (agg : Agg) (p : String) (r : Nat)
    (col : String) (hpr : (p, r) ∈ payer_row_mapping) (hnd : agg.statKeys.Nodup)
    (hcol : col ∈ (["D", "F", "H", "K"] : List String)) :
    (populateSheet ws agg).cells col r =
      if (ws.cells col r).isFormula then ws.cells col r
      else Cell.num (designatedValue agg p col) := by
  have hkeysnd : (payer_row_mapping.map Prod.fst).Nodup := by decide
  have hrowsnd : (payer_row_mapping.map Prod.snd).Nodup := by decide
  unfold populateSheet
  by_cases hp : p ∈ agg.statKeys
  · have hrow : lookupRow payer_row_mapping p = some r :=
      mem_lookupRow payer_row_mapping hkeysnd p r hpr
    have hinj : ∀ q, lookupRow payer_row_mapping q = some r → q = p :=
      fun q hq => rows_inj payer_row_mapping hrowsnd q p r (lookupRow_mem _ q r hq) hpr
    have h2 : ∀ c, (payer_row_mapping.foldl (popZeroStep agg)
        (agg.statKeys.foldl (popKnownStep agg) ws)).cells c r =
        (agg.statKeys.foldl (popKnownStep agg) ws).cells c r := by
      intro c
      apply popZero_untouched
      intro pr hprmem hnotin heq
      have hfst : pr.fst = p := by
        apply rows_inj payer_row_mapping hrowsnd pr.fst p r _ hpr
        have : pr = (pr.fst, r) := by
          rw [← heq]
        rw [← this]
        exact hprmem
      rw [hfst] at hnotin
      exact hnotin hp
    have h1 := popKnown_val agg p r hrow hinj agg.statKeys ws hnd hp
    rw [h2 col, h1 col]
    simp only [List.mem_cons, List.not_mem_nil, or_false] at hcol
    rcases hcol with rfl | rfl | rfl | rfl
    · rw [writePayerRow_cells_D]
      simp [designatedValue, hp]
    · rw [writePayerRow_cells_F]
      simp [designatedValue, hp]
    · rw [writePayerRow_cells_H]
      simp [designatedValue, hp]
    · rw [writePayerRow_cells_K]
      simp [designatedValue, hp]
  · have h1 : ∀ c, (agg.statKeys.foldl (popKnownStep agg) ws).cells c r = ws.cells c r := by
      intro c
      apply popKnown_untouched
      intro q hq heq
      have hqp : q = p :=
        rows_inj payer_row_mapping hrowsnd q p r (lookupRow_mem _ q r heq) hpr
      rw [hqp] at hq
      exact hp hq
    have h2 := popZero_val agg p r hp payer_row_mapping
      (agg.statKeys.foldl (popKnownStep agg) ws) hpr hrowsnd
    rw [h2 col, writePayerRow_congr_row h1 col]
    simp only [List.mem_cons, List.not_mem_nil, or_false] at hcol
    rcases hcol with rfl | rfl | rfl | rfl
    · rw [writePayerRow_cells_D]
      simp [designatedValue, hp]
    · rw [writePayerRow_cells_F]
      simp [designatedValue, hp]
    · rw [writePayerRow_cells_H]
      simp [designatedValue, hp]
    · rw [writePayerRow_cells_K]
      simp [designatedValue, hp]

/-- A worksheet that is blank everywhere. -/
def wsBlank : Worksheet :=
  { cells := fun _ _ => Cell.blank }

/-- A worksheet mixing a formula cell (D5) and a literal cell (F5) in the
same payer row. -/
def wsMixed : Worksheet :=
  { cells := fun c r =>
      if c = "D" ∧ r = 5 then Cell.formula "=B5+C5"
      else if c = "F" ∧ r = 5 then Cell.num 7
      else Cell.blank }

/-- Aggregates with data for Aetna only. -/
def aggWitness : Agg :=
  { statKeys := ["Aetna"],
    stats := fun p c => if p = "Aetna" ∧ c = "Balanced" then 3 else 0,
    amkaiKeys := ["Aetna"],
    amkai := fun p => if p = "Aetna" then 2 else 0 }

/-- C1: a cell at a payer row and one of the four output columns that holds
a formula keeps that formula across population, whatever the computed
counts; the check is per cell, so a non-formula cell of the same row in
another output column is still written with its designated count. -/
theorem formula_preservation_per_cell (ws : Worksheet) (agg : Agg) (p : String)
    (r : Nat) (col col2 e : String) (hpr : (p, r) ∈ payer_row_mapping)
    (hnd : agg.statKeys.Nodup) (_hcol : col ∈ (["D", "F", "H", "K"] : List String))
    (hcol2 : col2 ∈ (["D", "F", "H", "K"] : List String))
    (hf : ws.cells col r = Cell.formula e)
    (hlit : (ws.cells col2 r).isFormula = false) :
    (populateSheet ws agg).cells col r = Cell.formula e ∧
    (populateSheet ws agg).cells col2 r = Cell.num (designatedValue agg p col2) := by
  constructor
  · exact populateSheet_formula ws agg col r e hf
  · rw [populateSheet_payerCell ws agg p r col2 hpr hnd hcol2, hlit]
    simp

/-- Witness for C1 at a concrete worksheet: D5 holds a formula and survives,
F5 is a literal and is written. -/
theorem formula_preservation_per_cell_witness :
    (populateSheet wsMixed aggWitness).cells "D" 5 = Cell.formula "=B5+C5" ∧
    (populateSheet wsMixed aggWitness).cells "F" 5 =
      Cell.num (designatedValue aggWitness "Aetna" "F") :=
  formula_preservation_per_cell wsMixed aggWitness "Aetna" 5 "D" "F" "=B5+C5"
    (by decide) (by decide) (by decide) (by decide) rfl rfl

/-- C3: after population, every mapped payer row has all four output columns
set: a formula cell is skipped and keeps its formula, every other cell holds
the payer's aggregated count, zero for a payer absent from the aggregates,
except that column K of an absent payer receives that payer's Amkai counter
rather than a forced zero. -/
theorem zero_fill_completeness (ws : Worksheet) (agg : Agg) (p : String) (r : Nat)
    (col : String) (hpr : (p, r) ∈ payer_row_mapping) (hnd : agg.statKeys.Nodup)
    (hcol : col ∈ (["D", "F", "H", "K"] : List String)) :
    (populateSheet ws agg).cells col r =
      if (ws.cells col r).isFormula then ws.cells col r
      else Cell.num (designatedValue agg p col) :=
  populateSheet_payerCell ws agg p r col hpr hnd hcol

/-- Witness for C3 at a concrete input: Amerigroup (row 6) is absent from the
aggregates, and its column K cell is still set (to its Amkai counter). -/
theorem zero_fill_completeness_witness :
    (populateSheet wsBlank aggWitness).cells "K" 6 =
      if (wsBlank.cells "K" 6).isFormula then wsBlank.cells "K" 6
      else Cell.num (designatedValue aggWitness "Amerigroup" "K") :=
  zero_fill_completeness wsBlank aggWitness "Amerigroup" 6 "K"
    (by decide) (by decide) (by decide)

/-- C7 counterexample: aggregation keys any payer name extracted from a
filename, so the keys of the produced `AggregateCounts` need not be a subset
of the `PayerRowMap` domain. -/
theorem aggregate_keys_not_subset :
    "Bogus" ∈ (aggregateFiles [bogusFile]).statKeys ∧
    "Bogus" ∉ payer_row_mapping.map Prod.fst := by decide

/-- C7 amended: the aggregation may produce payer keys outside the
`PayerRowMap` domain; the populator ignores them, so no cell in a row not
assigned to a known payer is ever modified. -/
theorem unmapped_payer_rows_untouched (ws : Worksheet) (agg : Agg) (c : String)
    (r : Nat) (hr : r ∉ payer_row_mapping.map Prod.snd) :
    (populateSheet ws agg).cells c r = ws.cells c r := by
  unfold populateSheet
  rw [popZero_untouched agg r c payer_row_mapping _ ?_, popKnown_untouched agg r c _ ws ?_]
  · intro q _ heq
    have hmm : Prod.snd (q, r) ∈ payer_row_mapping.map Prod.snd :=
      List.mem_map_of_mem Prod.snd (lookupRow_mem payer_row_mapping q r heq)
    exact hr hmm
  · intro pr hpr _ heq
    have hmm : Prod.snd pr ∈ payer_row_mapping.map Prod.snd :=
      List.mem_map_of_mem Prod.snd hpr
    rw [heq] at hmm
    exact hr hmm

/-- Witness for the amended C7: the Bogus payer aggregates to a key, but a
row outside the mapping (row 99) is untouched by population. -/
theorem unmapped_payer_rows_untouched_witness :
    (populateSheet wsBlank (aggregateFiles [bogusFile])).cells "D" 99 =
      wsBlank.cells "D" 99 :=
  unmapped_payer_rows_untouched wsBlank (aggregateFiles [bogusFile]) "D" 99 (by decide)

/-- C8: populating a sheet name absent from the workbook leaves the workbook
unchanged and does not save it; the Boolean records that `wb.save` never
ran. -/
theorem missing_sheet_no_mutation (wb : Workbook) (sheetName : String) (agg : Agg)
    (habs : sheetName ∉ wb.sheetNames) :
    populate_monthly_worksheet wb sheetName agg = (wb, false) := by
  unfold populate_monthly_worksheet
  rw [if_neg habs]

/-- A one-sheet workbook used by the C8 witness. -/
def wbSmall : Workbook :=
  { sheets := [("2025-01", wsBlank)] }

/-- Witness for C8: asking for a sheet the workbook does not have returns it
unchanged and unsaved. -/
theorem missing_sheet_no_mutation_witness :
    populate_monthly_worksheet wbSmall "2025-02" emptyAgg = (wbSmall, false) :=
  missing_sheet_no_mutation wbSmall "2025-02" emptyAgg (by decide)

/-- C5: provisioning is idempotent: an existing stats workbook for the year
is opened and returned with the file state unmodified (no re-clone, no
re-substitution), and after a first call that created the file, a second
call in succession is a no-op returning the same file unchanged. -/
theorem provisioning_idempotent (fs : FS) (year : String) :
    (∀ wb, fs.stats year = some wb →
      ensure_workbook fs year = ProvisionResult.existing fs wb) ∧
    (∀ fs1 wb1, ensure_workbook fs year = ProvisionResult.created fs1 wb1 →
      ensure_workbook fs1 year = ProvisionResult.existing fs1 wb1) := by
  constructor
  · intro wb h
    unfold ensure_workbook
    rw [h]
  · intro fs1 wb1 h
    unfold ensure_workbook at h ⊢
    cases hst : fs.stats year with
    | some wb =>
      rw [hst] at h
      cases h
    | none =>
      rw [hst] at h
      cases htm : fs.template with
      | none =>
        rw [htm] at h
        cases h
      | some tmpl =>
        rw [htm] at h
        injection h with hfs hwb
        subst hfs
        subst hwb
        simp

/-- Template workbook for the provisioning witness. -/
def tmplSmall : Workbook :=
  { sheets := [("YYYY-01", wsBlank), ("YYYY-YTD", wsBlank)] }

/-- File state before any stats file exists, with the template present. -/
def fsFresh : FS :=
  { stats := fun _ => none, template := some tmplSmall }

/-- The workbook the first provisioning call creates for 2025. -/
def wbCreated : Workbook :=
  substituteYear tmplSmall "2025"

/-- File state after the first provisioning call for 2025. -/
def fsAfter : FS :=
  { fsFresh with stats := fun y => if y = "2025" then some wbCreated else fsFresh.stats y }

/-- Witness for C5: after a concrete first call created the 2025 file, the
second call opens it and returns the file state unchanged; likewise the
direct existing-file branch. -/
theorem provisioning_idempotent_witness :
    ensure_workbook fsAfter "2025" = ProvisionResult.existing fsAfter wbCreated ∧
    ensure_workbook fsAfter "2025" = ProvisionResult.existing fsAfter wbCreated :=
  ⟨(provisioning_idempotent fsAfter "2025").1 wbCreated rfl,
   (provisioning_idempotent fsFresh "2025").2 fsAfter wbCreated rfl⟩

/-- A stats workbook already existing for 2025 in the C6 counterexample. -/
def wbYr2025 : Workbook :=
  { sheets := [("2025-01", wsBlank), ("2025-YTD", wsBlank)] }

/-- File state with the 2025 stats file present, no 2024 file, and the
template missing. -/
def fsNoTemplate : FS :=
  { stats := fun y => if y = "2025" then some wbYr2025 else none, template := none }

/-- A 2024 input file for the C6 counterexample. -/
def file2024 : SourceFile :=
  { name := "2024-01_PMT MASTER_Aetna.xlsx", noteRows := some [some "Balanced"] }

/-- Period data spanning two years for the C6 counterexample. -/
def dataTwoYears : List (String × List SourceFile) :=
  [("2024-01", [file2024]), ("2025-01", [aetnaJan])]

/-- C6 counterexample: with the template missing and no 2024 stats file, the
run hits the error branch at 2024 and `return`s, so 2025 — although among
the years to process and with its workbook already on disk — is never
processed: the claim that the run continues with the remaining years fails. -/
theorem missing_template_aborts_run :
    generate_reports_from_template fsNoTemplate dataTwoYears = (fsNoTemplate, []) ∧
    fsNoTemplate.stats "2025" = some wbYr2025 ∧
    yearsOf dataTwoYears = ["2024", "2025"] :=
  ⟨rfl, rfl, by decide⟩

/-- C6 amended: when a year's stats workbook does not exist and the template
is missing, the error is reported and the per-year loop returns immediately,
so that year and every remaining year are skipped and the file state is left
as it was. -/
theorem missing_template_fatal (fs : FS) (monthlyData : List (String × List SourceFile))
    (year : String) (rest : List String)
    (hmonths : (monthlyData.filter (fun g => pyStartsWith g.fst year)).isEmpty = false)
    (hstats : fs.stats year = none) (htmpl : fs.template = none) :
    reportsLoop monthlyData fs (year :: rest) = (fs, []) := by
  have hens : ensure_workbook fs year = ProvisionResult.missingTemplate fs := by
    unfold ensure_workbook
    rw [hstats, htmpl]
  unfold reportsLoop
  simp only [hmonths, hens]
  rfl

/-- Witness for the amended C6 at the concrete two-year input. -/
theorem missing_template_fatal_witness :
    reportsLoop dataTwoYears fsNoTemplate ["2024", "2025"] = (fsNoTemplate, []) :=
  missing_template_fatal fsNoTemplate dataTwoYears "2024" ["2025"]
    (by decide) rfl rfl

/-- C2 counterexample: the empty string is not caught by `pd.isna`, so it is
passed through verbatim as an unmapped category instead of being excluded. -/
theorem empty_note_not_excluded :
    normalize_payment_note (some "") = some "" ∧
    normalize_payment_note (some "") ≠ none := by decide

/-- C2 amended: the taxonomy holds as claimed on the listed inputs except
for the empty string, which passes through verbatim as an unmapped category;
only a missing (`NaN`) note yields `None` and is excluded from all counts. -/
theorem normalize_taxonomy_amended :
    normalize_payment_note (some "Balanced-Batch Closed") = some "Balanced" ∧
    normalize_payment_note (some "Proliance Backup Timeout") = none ∧
    normalize_payment_note (some "") = some "" ∧
    normalize_payment_note (some "Something Else") = some "Something Else" ∧
    normalize_payment_note none = none := by decide

/-- C4: the two-file Aetna scenario: month 1 yields Balanced 1 and
Not Balanced-Review 1, month 2 yields Balanced 1 and Amkai 1, and the fresh
YTD pass over both files yields Balanced 2, Not Balanced-Review 1 and
Amkai 1, with the Amkai count held in the separate per-payer counter and
never in the generic category map. -/
theorem ytd_consistency_scenario :
    (aggregateFiles [aetnaJan]).stats "Aetna" "Balanced" = 1 ∧
    (aggregateFiles [aetnaJan]).stats "Aetna" "Not Balanced-Review" = 1 ∧
    (aggregateFiles [aetnaJan]).stats "Aetna" "Not Balanced-Expected" = 0 ∧
    (aggregateFiles [aetnaJan]).amkai "Aetna" = 0 ∧
    (aggregateFiles [aetnaFeb]).stats "Aetna" "Balanced" = 1 ∧
    (aggregateFiles [aetnaFeb]).stats "Aetna" "Not Balanced-Review" = 0 ∧
    (aggregateFiles [aetnaFeb]).stats "Aetna" "Amkai" = 0 ∧
    (aggregateFiles [aetnaFeb]).amkai "Aetna" = 1 ∧
    (ytdAggregate [("2025-01", [aetnaJan]), ("2025-02", [aetnaFeb])]).stats
      "Aetna" "Balanced" = 2 ∧
    (ytdAggregate [("2025-01", [aetnaJan]), ("2025-02", [aetnaFeb])]).stats
      "Aetna" "Not Balanced-Review" = 1 ∧
    (ytdAggregate [("2025-01", [aetnaJan]), ("2025-02", [aetnaFeb])]).stats
      "Aetna" "Amkai" = 0 ∧
    (ytdAggregate [("2025-01", [aetnaJan]), ("2025-02", [aetnaFeb])]).amkai
      "Aetna" = 1 := by decide

/-- C9: the filename `2025-08_PMT MASTER_Aetna.xlsx` classifies to period
`2025-08` (first 7 characters) and payer `Aetna`; a filename without a
supported year prefix, such as `readme.txt`, is skipped with no error; and a
filename without exactly one occurrence of the delimiter yields no payer. -/
theorem filename_classification :
    classify_filename "2025-08_PMT MASTER_Aetna.xlsx" = some "2025-08" ∧
    extract_payer_name "2025-08_PMT MASTER_Aetna.xlsx" = some "Aetna" ∧
    classify_filename "readme.txt" = none ∧
    (∀ fn : String, pyStartsWith fn "2024-" = false → pyStartsWith fn "2025-" = false →
      pyStartsWith fn "2026-" = false → classify_filename fn = none) ∧
    (∀ fn : String, (pySplit fn "_PMT MASTER_").length ≠ 2 →
      extract_payer_name fn = none) := by
  refine ⟨by decide, by decide, by decide, ?_, ?_⟩
  · intro fn h1 h2 h3
    unfold classify_filename
    rw [h1, h2, h3]
    rfl
  · intro fn hlen
    unfold extract_payer_name
    cases hsplit : pySplit fn "_PMT MASTER_" with
    | nil => rfl
    | cons a t =>
      cases t with
      | nil => rfl
      | cons b t2 =>
        cases t2 with
        | nil =>
          exfalso
          apply hlen
          rw [hsplit]
          rfl
        | cons d t3 => rfl

/-- Witness for C9: the universally quantified parts applied at concrete
filenames. -/
theorem filename_classification_witness :
    classify_filename "zzz.xlsx" = none ∧ extract_payer_name "readme.txt" = none :=
  ⟨filename_classification.2.2.2.1 "zzz.xlsx" (by decide) (by decide) (by decide),
   filename_classification.2.2.2.2 "readme.txt" (by decide)⟩

/-- Contribution of one file to the count of payer `p` and non-Amkai
category `c`, as both aggregation passes compute it. -/
def fileStatContrib (f : SourceFile) (p c : String) : Nat :=
  match extract_payer_name f.name with
  | none => 0
  | some payer =>
    match f.noteRows with
    | none => 0
    | some notes =>
      if notes.isEmpty then 0
      else if payer = p then
        ((normalizedNotes notes).filter (fun x => x ≠ "Amkai")).countP
          (fun x => decide (x = c))
      else 0

/-- Contribution of one file to the Amkai counter of payer `p`. -/
def fileAmkaiContrib (f : SourceFile) (p : String) : Nat :=
  match extract_payer_name f.name with
  | none => 0
  | some payer =>
    match f.noteRows with
    | none => 0
    | some notes =>
      if notes.isEmpty then 0
      else if payer = p then (normalizedNotes notes).countP (fun c => c = "Amkai")
      else 0

theorem bumpStat_stats (a : Agg) (p0 c0 p c : String) :
    (bumpStat a p0 c0).stats p c = a.stats p c + (if p0 = p ∧ c0 = c then 1 else 0) := by
  unfold bumpStat
  dsimp only
  by_cases h : p = p0 ∧ c = c0
  · rcases h with ⟨rfl, rfl⟩
    simp
  · have h2 : ¬(p0 = p ∧ c0 = c) := fun hh => h ⟨hh.1.symm, hh.2.symm⟩
    simp [h, h2]

theorem bumpStat_amkai (a : Agg) (p0 c0 : String) :
    (bumpStat a p0 c0).amkai = a.amkai := rfl

theorem bumpAmkai_stats (a : Agg) (p0 : String) (n : Nat) :
    (bumpAmkai a p0 n).stats = a.stats := rfl

theorem bumpAmkai_amkai (a : Agg) (p0 : String) (n : Nat) (p : String) :
    (bumpAmkai a p0 n).amkai p = a.amkai p + (if p0 = p then n else 0) := by
  unfold bumpAmkai
  dsimp only
  by_cases h : p = p0
  · subst h
    simp
  · have h2 : ¬(p0 = p) := fun hh => h hh.symm
    simp [h, h2]

theorem foldBump_stats (p0 : String) : ∀ (cats : List String) (a : Agg) (p c : String),
    ((cats.foldl (fun acc c0 => bumpStat acc p0 c0) a).stats p c) =
      a.stats p c + (if p0 = p then cats.countP (fun x => decide (x = c)) else 0) := by
  intro cats
  induction cats with
  | nil =>
    intro a p c
    simp
  | cons d t ih =>
    intro a p c
    rw [List.foldl_cons, ih, bumpStat_stats]
    by_cases hp : p0 = p
    · subst hp
      by_cases hc : d = c
      · subst hc
        simp [List.countP_cons]
        omega
      · have hdec : (decide (d = c)) = false := decide_eq_false hc
        simp [List.countP_cons, hc, hdec]
    · have h2 : ¬(p0 = p ∧ d = c) := fun hh => hp hh.1
      simp [hp, h2]

theorem foldBump_amkai (p0 : String) : ∀ (cats : List String) (a : Agg) (p : String),
    ((cats.foldl (fun acc c0 => bumpStat acc p0 c0) a).amkai p) = a.amkai p := by
  intro cats
  induction cats with
  | nil => intro a p; rfl
  | cons d t ih =>
    intro a p
    rw [List.foldl_cons, ih, bumpStat_amkai]

theorem processFile_stats (f : SourceFile) (a : Agg) (p c : String) :
    (processFile a f).stats p c = a.stats p c + fileStatContrib f p c := by
  unfold processFile fileStatContrib
  cases extract_payer_name f.name with
  | none => simp
  | some payer =>
    cases f.noteRows with
    | none => simp
    | some notes =>
      dsimp only
      by_cases hemp : notes.isEmpty = true
      · rw [if_pos hemp, if_pos hemp]
        simp
      · rw [if_neg hemp, if_neg hemp]
        rw [bumpAmkai_stats, foldBump_stats]

theorem processFile_amkai (f : SourceFile) (a : Agg) (p : String) :
    (processFile a f).amkai p = a.amkai p + fileAmkaiContrib f p := by
  unfold processFile fileAmkaiContrib
  cases extract_payer_name f.name with
  | none => simp
  | some payer =>
    cases f.noteRows with
    | none => simp
    | some notes =>
      dsimp only
      by_cases hemp : notes.isEmpty = true
      · rw [if_pos hemp, if_pos hemp]
        simp
      · rw [if_neg hemp, if_neg hemp]
        rw [bumpAmkai_amkai, foldBump_amkai]

theorem foldFiles_stats (p c : String) : ∀ (files : List SourceFile) (a : Agg),
    ((files.foldl processFile a).stats p c) =
      a.stats p c + (files.map (fun f => fileStatContrib f p c)).sum := by
  intro files
  induction files with
  | nil => intro a; simp
  | cons f t ih =>
    intro a
    rw [List.foldl_cons, ih, processFile_stats, List.map_cons, List.sum_cons,
      Nat.add_assoc]

theorem foldFiles_amkai (p : String) : ∀ (files : List SourceFile) (a : Agg),
    ((files.foldl processFile a).amkai p) =
      a.amkai p + (files.map (fun f => fileAmkaiContrib f p)).sum := by
  intro files
  induction files with
  | nil => intro a; simp
  | cons f t ih =>
    intro a
    rw [List.foldl_cons, ih, processFile_amkai, List.map_cons, List.sum_cons,
      Nat.add_assoc]

theorem foldGroups_stats (p c : String) :
    ∀ (groups : List (String × List SourceFile)) (a : Agg),
    ((groups.foldl (fun a0 g => g.snd.foldl processFile a0) a).stats p c) =
      a.stats p c +
        (groups.map (fun g => ((g.snd.map (fun f => fileStatContrib f p c)).sum))).sum := by
  intro groups
  induction groups with
  | nil => intro a; simp
  | cons g t ih =>
    intro a
    rw [List.foldl_cons, ih, foldFiles_stats, List.map_cons, List.sum_cons,
      Nat.add_assoc]

theorem foldGroups_amkai (p : String) :
    ∀ (groups : List (String × List SourceFile)) (a : Agg),
    ((groups.foldl (fun a0 g => g.snd.foldl processFile a0) a).amkai p) =
      a.amkai p +
        (groups.map (fun g => ((g.snd.map (fun f => fileAmkaiContrib f p)).sum))).sum := by
  intro groups
  induction groups with
  | nil => intro a; simp
  | cons g t ih =>
    intro a
    rw [List.foldl_cons, ih, foldFiles_amkai, List.map_cons, List.sum_cons,
      Nat.add_assoc]

theorem aggregateFiles_stats (files : List SourceFile) (p c : String) :
    (aggregateFiles files).stats p c =
      (files.map (fun f => fileStatContrib f p c)).sum := by
  unfold aggregateFiles
  rw [foldFiles_stats]
  simp [emptyAgg]

theorem aggregateFiles_amkai (files : List SourceFile) (p : String) :
    (aggregateFiles files).amkai p =
      (files.map (fun f => fileAmkaiContrib f p)).sum := by
  unfold aggregateFiles
  rw [foldFiles_amkai]
  simp [emptyAgg]

/-- C10: the YTD aggregate equals the pointwise sum of the monthly
aggregates: for every payer and category the YTD count is the sum over the
months of the monthly counts, and the YTD Amkai counter is the sum of the
monthly Amkai counters, because both passes run the same per-file
normalize-filter-count step over the same files. -/
theorem ytd_equals_sum_of_months (groups : List (String × List SourceFile))
    (p c : String) :
    (ytdAggregate groups).stats p c =
      (groups.map (fun g => (aggregateFiles g.snd).stats p c)).sum ∧
    (ytdAggregate groups).amkai p =
      (groups.map (fun g => (aggregateFiles g.snd).amkai p)).sum := by
  constructor
  · unfold ytdAggregate
    rw [foldGroups_stats]
    have hpt : groups.map (fun g => (aggregateFiles g.snd).stats p c) =
        groups.map (fun g => ((g.snd.map (fun f => fileStatContrib f p c)).sum)) := by
      apply List.map_congr_left
      intro g _
      exact aggregateFiles_stats g.snd p c
    rw [hpt]
    simp [emptyAgg]
  · unfold ytdAggregate
    rw [foldGroups_amkai]
    have hpt : groups.map (fun g => (aggregateFiles g.snd).amkai p) =
        groups.map (fun g => ((g.snd.map (fun f => fileAmkaiContrib f p)).sum)) := by
      apply List.map_congr_left
      intro g _
      exact aggregateFiles_amkai g.snd p
    rw [hpt]
    simp [emptyAgg]

end PS1C
